import Mathlib

/-!
Shallow embedding of the MSIM RISC-V RV32IMA CPU core
(src/src/device/cpu/riscv_rv32ima/cpu.c) and verification of the
specification claims about it.

Machine integers are modelled as `Nat` with explicit `% 2^32` / `% 2^64`
where C unsigned overflow matters.  Physical memory (physmem.c is not part
of the sources) is abstracted as a pure read map plus write-success
predicates; device side effects of noisy reads are irrelevant to every
claim considered here.
-/

namespace Msim

/-! ### Constants from csr.h / cpu.h (headers are not among the sources)

Modelled from the spec: exception codes occupy the low bits and interrupts
set the high bit (`RV_INTERRUPT_EXC_BITS`); the numeric codes are the
RISC-V privileged-architecture codes the spec refers to (MEI, MSI, MTI,
SEI, SSI, STI, page/alignment faults). -/

def RV_INTERRUPT_EXC_BITS : Nat := 0x80000000

def rv_exc_instruction_address_misaligned : Nat := 0

def rv_exc_illegal_instruction : Nat := 2

def rv_exc_load_address_misaligned : Nat := 4

def rv_exc_store_amo_address_misaligned : Nat := 6

def rv_exc_instruction_page_fault : Nat := 12

def rv_exc_load_page_fault : Nat := 13

def rv_exc_store_amo_page_fault : Nat := 15

def rv_exc_supervisor_software_interrupt : Nat := RV_INTERRUPT_EXC_BITS + 1

def rv_exc_machine_software_interrupt : Nat := RV_INTERRUPT_EXC_BITS + 3

def rv_exc_supervisor_timer_interrupt : Nat := RV_INTERRUPT_EXC_BITS + 5

def rv_exc_machine_timer_interrupt : Nat := RV_INTERRUPT_EXC_BITS + 7

def rv_exc_supervisor_external_interrupt : Nat := RV_INTERRUPT_EXC_BITS + 9

def rv_exc_machine_external_interrupt : Nat := RV_INTERRUPT_EXC_BITS + 11

/-- Modelled from the spec: a distinguished value different from every
architectural exception code, standing for the absence of an exception. -/
def rv_exc_none : Nat := 0x7FFFFFFF

/-- RV_EXCEPTION_MASK from csr.h: one-hot mask of the cause code with the
interrupt bit stripped (32-bit complement of `RV_INTERRUPT_EXC_BITS`). -/
def RV_EXCEPTION_MASK (ex : Nat) : Nat := 1 <<< (ex &&& 0x7FFFFFFF)

/-- RV_INTERRUPT_NO from csr.h: the cause code with the interrupt bit
stripped. -/
def RV_INTERRUPT_NO (ex : Nat) : Nat := ex &&& 0x7FFFFFFF

/-! Privilege modes, values per the privileged spec: U=0, S=1, M=3. -/

def rv_umode : Nat := 0

def rv_smode : Nat := 1

def rv_mmode : Nat := 3

/-! mstatus / sstatus bit positions per the RISC-V privileged spec
(spec: mstatus bit-fields MIE, MPIE, MPP, SIE, SPIE, SPP, MPRV, SUM, MXR
obey the privileged spec). -/

def rv_csr_sstatus_sie_mask : Nat := 0x2

def rv_csr_mstatus_mie_mask : Nat := 0x8

def rv_csr_sstatus_spie_mask : Nat := 0x20

def rv_csr_mstatus_mpie_mask : Nat := 0x80

def rv_csr_sstatus_spp_mask : Nat := 0x100

def rv_csr_sstatus_spp_pos : Nat := 8

def rv_csr_mstatus_mpp_mask : Nat := 0x1800

def rv_csr_mstatus_mpp_pos : Nat := 11

def rv_csr_mstatus_mprv_mask : Nat := 0x20000

def rv_csr_mstatus_sum_mask : Nat := 0x40000

def rv_csr_mstatus_mxr_mask : Nat := 0x80000

/-! mtvec/stvec encoding: `{base[31:2], mode[1:0]}`, direct = 0,
vectored = 1. -/

def rv_csr_mtvec_mode_mask : Nat := 0x3

def rv_csr_mtvec_mode_direct : Nat := 0

def rv_csr_mtvec_mode_vectored : Nat := 1

/-! Interrupt-pending / interrupt-enable one-bit masks (bit = cause code). -/

def rv_csr_ssi_mask : Nat := 0x2

def rv_csr_msi_mask : Nat := 0x8

def rv_csr_sti_mask : Nat := 0x20

def rv_csr_mti_mask : Nat := 0x80

def rv_csr_sei_mask : Nat := 0x200

def rv_csr_mei_mask : Nat := 0x800

/-- Mask of the supervisor interrupts SSI, STI, SEI. -/
def rv_csr_si_mask : Nat := 0x222

/-! hpm event selectors (csr_hpm_event_t). -/

def hpm_u_cycles : Nat := 0

def hpm_s_cycles : Nat := 1

def hpm_m_cycles : Nat := 2

def hpm_w_cycles : Nat := 3

/-- Modelled from the spec: fixed 8-byte-aligned physical address of the
memory-mapped `mtime` register (the concrete value is implementer-chosen). -/
def RV_MTIME_ADDRESS : Nat := 0x40000000

/-- Modelled from the spec: fixed 8-byte-aligned physical address of the
memory-mapped `mtimecmp` register. -/
def RV_MTIMECMP_ADDRESS : Nat := 0x40000008

/-- ALIGN_DOWN from utils.h: round down to a multiple of `n`. -/
def align_down (a n : Nat) : Nat := a - a % n

/-- IS_ALIGNED from utils.h. -/
def is_aligned (a n : Nat) : Bool := a % n == 0

/-- 32-bit complement, the C `~mask` on a `uint32_t`. -/
def compl32 (m : Nat) : Nat := 0xFFFFFFFF ^^^ m

/-- 64-bit complement, the C `~mask` on a `uint64_t`. -/
def compl64 (m : Nat) : Nat := 0xFFFFFFFFFFFFFFFF ^^^ m

/-- EXTRACT_BITS from utils.h: bits `[lo, hi)` of `v`. -/
def EXTRACT_BITS (v lo hi : Nat) : Nat := (v >>> lo) % 2 ^ (hi - lo)

/-- WRITE_BITS from utils.h: replace bits `[lo, hi)` of `old` with the low
bits of `v`. -/
def WRITE_BITS (old v lo hi : Nat) : Nat :=
  (old &&& compl64 ((2 ^ (hi - lo) - 1) <<< lo)) ||| ((v % 2 ^ (hi - lo)) <<< lo)

/-! ### CPU state (rv_cpu_t / csr.h state) -/

/-- CSR file of one hart (csr.h). Fields are the architectural registers
the cpu.c code reads and writes; 32-bit registers hold values below
`2 ^ 32`, `mtime`, `mtimecmp`, `cycle`, `instret` are 64-bit. -/
structure rv_csr_t where
  mstatus : Nat
  mie : Nat
  mip : Nat
  mtvec : Nat
  stvec : Nat
  mepc : Nat
  sepc : Nat
  mcause : Nat
  scause : Nat
  mtval : Nat
  stval : Nat
  medeleg : Nat
  mideleg : Nat
  satp : Nat
  mtime : Nat
  mtimecmp : Nat
  scyclecmp : Nat
  cycle : Nat
  instret : Nat
  hpmcounters : Nat → Nat
  hpmevents : Nat → Nat
  mcountinhibit : Nat
  mhartid : Nat
  external_SEIP : Bool
  tval_next : Nat
  last_tick_time : Nat

/-- CPU state (rv_cpu_t). -/
structure rv_cpu_t where
  pc : Nat
  pc_next : Nat
  regs : Nat → Nat
  priv_mode : Nat
  stdby : Bool
  reserved_addr : Nat
  reserved_valid : Bool
  csr : rv_csr_t

/-- Physical-memory abstraction (physmem.c is not among the sources;
modelled from the spec: PM resolves a physical address and performs
width-correct reads, and writes report success as a boolean).  Reads are
pure maps, truncated to the access width at the use sites; write-success
is an arbitrary predicate of address and value. -/
structure PMem where
  read8 : Nat → Nat
  read16 : Nat → Nat
  read32 : Nat → Nat
  write8ok : Nat → Nat → Bool
  write16ok : Nat → Nat → Bool
  write32ok : Nat → Nat → Bool

/-! ### CSR accessors (csr.h inline helpers, modelled from the spec's
description of the mstatus/satp fields) -/

def rv_csr_mstatus_mie (cpu : rv_cpu_t) : Bool :=
  (cpu.csr.mstatus &&& rv_csr_mstatus_mie_mask) != 0

def rv_csr_mstatus_mpie (cpu : rv_cpu_t) : Bool :=
  (cpu.csr.mstatus &&& rv_csr_mstatus_mpie_mask) != 0

def rv_csr_mstatus_mprv (cpu : rv_cpu_t) : Bool :=
  (cpu.csr.mstatus &&& rv_csr_mstatus_mprv_mask) != 0

def rv_csr_mstatus_mpp (cpu : rv_cpu_t) : Nat :=
  (cpu.csr.mstatus &&& rv_csr_mstatus_mpp_mask) >>> rv_csr_mstatus_mpp_pos

def rv_csr_sstatus_sie (cpu : rv_cpu_t) : Bool :=
  (cpu.csr.mstatus &&& rv_csr_sstatus_sie_mask) != 0

def rv_csr_sstatus_spie (cpu : rv_cpu_t) : Bool :=
  (cpu.csr.mstatus &&& rv_csr_sstatus_spie_mask) != 0

def rv_csr_sstatus_spp (cpu : rv_cpu_t) : Nat :=
  (cpu.csr.mstatus &&& rv_csr_sstatus_spp_mask) >>> rv_csr_sstatus_spp_pos

def rv_csr_sstatus_sum (cpu : rv_cpu_t) : Bool :=
  (cpu.csr.mstatus &&& rv_csr_mstatus_sum_mask) != 0

def rv_csr_sstatus_mxr (cpu : rv_cpu_t) : Bool :=
  (cpu.csr.mstatus &&& rv_csr_mstatus_mxr_mask) != 0

/-- satp bare mode: the Sv32 mode bit (bit 31) is clear. -/
def rv_csr_satp_is_bare (cpu : rv_cpu_t) : Bool :=
  (cpu.csr.satp &&& 0x80000000) == 0

def rv_csr_satp_ppn (cpu : rv_cpu_t) : Nat :=
  cpu.csr.satp &&& 0x3FFFFF

/-! ### Sv32 MMU (cpu.c lines 129-262)

The C code aliases a 32-bit word with the `sv32_pte_t` bit-field; here a
PTE is kept as its 32-bit word with shift/mask accessors for the fields
(v bit 0, r bit 1, w bit 2, x bit 3, u bit 4, g bit 5, a bit 6, d bit 7,
rsw bits 8-9, ppn bits 10-31). -/

def pte_v (w : Nat) : Bool := w.testBit 0

def pte_r (w : Nat) : Bool := w.testBit 1

def pte_w (w : Nat) : Bool := w.testBit 2

def pte_x (w : Nat) : Bool := w.testBit 3

def pte_u (w : Nat) : Bool := w.testBit 4

def pte_ppn (w : Nat) : Nat := w >>> 10

/-- is_pte_leaf macro: `pte.r | pte.w | pte.x`. -/
def is_pte_leaf (w : Nat) : Bool := pte_r w || pte_w w || pte_x w

/-- is_pte_valid macro: `pte.v && (!pte.w || pte.r)`. -/
def is_pte_valid (w : Nat) : Bool := pte_v w && (!pte_w w || pte_r w)

/-- pte_ppn0 macro: `pte.ppn & 0x0003FF`. -/
def pte_ppn0 (w : Nat) : Nat := pte_ppn w &&& 0x0003FF

/-- pte_ppn1 macro: `pte.ppn & 0x3FFC00`. -/
def pte_ppn1 (w : Nat) : Nat := pte_ppn w &&& 0x3FFC00

/-- sv32_effective_priv macro (cpu.c line 157): MPP when MPRV is set,
otherwise the current privilege mode.  Note that the source does not
exempt fetches. -/
def sv32_effective_priv (cpu : rv_cpu_t) : Nat :=
  if rv_csr_mstatus_mprv cpu then rv_csr_mstatus_mpp cpu else cpu.priv_mode

/-- effective_priv macro (cpu.c line 158). -/
def effective_priv (cpu : rv_cpu_t) : Nat :=
  if rv_csr_satp_is_bare cpu then cpu.priv_mode else sv32_effective_priv cpu

/-- is_access_allowed (cpu.c lines 160-180). -/
def is_access_allowed (cpu : rv_cpu_t) (pte : Nat) (wr fetch : Bool) : Bool :=
  if wr && !pte_w pte then false
  else if fetch && !pte_x pte then false
  else
    -- Page is executable and I can read from executable pages
    let rx := rv_csr_sstatus_mxr cpu && pte_x pte
    if !wr && !fetch && !pte_r pte && !rx then false
    else if sv32_effective_priv cpu == rv_smode && !rv_csr_sstatus_sum cpu && pte_u pte then false
    else if sv32_effective_priv cpu == rv_smode && fetch && pte_u pte then false
    else if sv32_effective_priv cpu == rv_umode && !pte_u pte then false
    else true

/-- make_phys_from_ppn (cpu.c lines 182-190). -/
def make_phys_from_ppn (virt pte : Nat) (megapage : Bool) : Nat :=
  let page_offset := virt &&& 0x00000FFF
  let virt_vpn0 := virt &&& 0x003FF000
  let ppn0 := pte_ppn0 pte <<< 12
  let ppn1 := pte_ppn1 pte <<< 12
  let phys_ppn0 := if megapage then virt_vpn0 else ppn0
  ppn1 ||| phys_ppn0 ||| page_offset

/-- page_fault_exception macro inside rv_convert_addr. -/
def page_fault_exception (wr fetch : Bool) : Nat :=
  if fetch then rv_exc_instruction_page_fault
  else if wr then rv_exc_store_amo_page_fault
  else rv_exc_load_page_fault

/-- Tail of rv_convert_addr shared by the megapage and 4 KiB branches:
permission check, A/D update, physical-address composition.  Besides the
physical address it records the final PTE word and whether the leaf was a
megapage, observations used by the invariant theorems below. -/
def sv32_finish (cpu : rv_cpu_t) (virt pte : Nat) (wr fetch megapage : Bool) :
    Except Nat (Nat × Option (Bool × Nat)) :=
  if !is_access_allowed cpu pte wr fetch then .error (page_fault_exception wr fetch)
  else
    -- pte.a = 1; pte.d |= wr (the write-back goes to physical memory and
    -- does not change the CPU state)
    let pte2 := pte ||| 0x40 ||| (if wr then 0x80 else 0)
    .ok (make_phys_from_ppn virt pte2 megapage, some (megapage, pte2))

/-- rv_convert_addr (cpu.c lines 192-262), instrumented to also return the
final PTE word and the megapage flag when a walk took place (`none` when
translation is inactive and the address is passed through). -/
def rv_convert_addr_aux (cpu : rv_cpu_t) (mem : PMem) (virt : Nat) (wr fetch _noisy : Bool) :
    Except Nat (Nat × Option (Bool × Nat)) :=
  let satp_active := !rv_csr_satp_is_bare cpu && decide (sv32_effective_priv cpu ≤ rv_smode)
  if !satp_active then .ok (virt, none)
  else
    let vpn0 := (virt &&& 0x003FF000) >>> 12
    let vpn1 := (virt &&& 0xFFC00000) >>> 22
    let ppn := rv_csr_satp_ppn cpu
    -- PAGESIZE = 12 (shift), PTESIZE = 4
    let a := ppn <<< 12
    let pte_addr := a + vpn1 * 4
    let pte := mem.read32 pte_addr % 2 ^ 32
    if !is_pte_valid pte then .error (page_fault_exception wr fetch)
    else if is_pte_leaf pte then
      -- MEGAPAGE; misaligned megapage check
      if pte_ppn0 pte != 0 then .error (page_fault_exception wr fetch)
      else sv32_finish cpu virt pte wr fetch true
    else
      -- Non-leaf PTE, make second translation step
      let a2 := pte_ppn pte <<< 12
      let pte_addr2 := a2 + vpn0 * 4
      let pte2 := mem.read32 pte_addr2 % 2 ^ 32
      if !is_pte_valid pte2 then .error (page_fault_exception wr fetch)
      else if !is_pte_leaf pte2 then .error (page_fault_exception wr fetch)
      else sv32_finish cpu virt pte2 wr fetch false

/-- rv_convert_addr as the callers see it: the physical address or a page
fault. -/
def rv_convert_addr (cpu : rv_cpu_t) (mem : PMem) (virt : Nat) (wr fetch noisy : Bool) :
    Except Nat Nat :=
  match rv_convert_addr_aux cpu mem virt wr fetch noisy with
  | .error ex => .error ex
  | .ok (phys, _) => .ok phys

/-! ### Memory-mapped timer registers (cpu.c lines 264-308) -/

/-- try_read_memory_mapped_regs_body for a given width; `some value` when
the access hit `mtime`/`mtimecmp`. -/
def try_read_memory_mapped_regs (cpu : rv_cpu_t) (virt width : Nat) : Option Nat :=
  if !is_aligned virt (width / 8) then none
  else if effective_priv cpu != rv_mmode then none
  else
    let offset := (virt &&& 0x7) * 8
    if align_down virt 8 == RV_MTIME_ADDRESS then
      some (EXTRACT_BITS cpu.csr.mtime offset (offset + width))
    else if align_down virt 8 == RV_MTIMECMP_ADDRESS then
      some (EXTRACT_BITS cpu.csr.mtimecmp offset (offset + width))
    else none

/-- try_write_memory_mapped_regs; `some cpu2` when the access hit. -/
def try_write_memory_mapped_regs (cpu : rv_cpu_t) (virt value width : Nat) :
    Option rv_cpu_t :=
  if !is_aligned virt (width / 8) then none
  else if effective_priv cpu != rv_mmode then none
  else
    let offset := (virt &&& 0x7) * 8
    if align_down virt 8 == RV_MTIME_ADDRESS then
      some { cpu with csr := { cpu.csr with
        mtime := WRITE_BITS cpu.csr.mtime value offset (offset + width) } }
    else if align_down virt 8 == RV_MTIMECMP_ADDRESS then
      some { cpu with csr := { cpu.csr with
        mtimecmp := WRITE_BITS cpu.csr.mtimecmp value offset (offset + width) } }
    else none

/-- throw_ex macro (cpu.c lines 310-314): record tval_next when noisy. -/
def throw_ex (cpu : rv_cpu_t) (virt : Nat) (noisy : Bool) : rv_cpu_t :=
  if noisy then { cpu with csr := { cpu.csr with tval_next := virt } } else cpu

/-- read_address_misaligned_exception macro (cpu.c line 264). -/
def read_address_misaligned_exception (fetch : Bool) : Nat :=
  if fetch then rv_exc_instruction_address_misaligned else rv_exc_load_address_misaligned

/-- rv_read_mem32 (cpu.c lines 316-338); the pair is the updated CPU state
and either the exception code or the value read. -/
def rv_read_mem32 (cpu : rv_cpu_t) (mem : PMem) (virt : Nat) (fetch noisy : Bool) :
    rv_cpu_t × Except Nat Nat :=
  match try_read_memory_mapped_regs cpu virt 32 with
  | some v => (cpu, .ok v)
  | none =>
    match rv_convert_addr cpu mem virt false fetch noisy with
    -- Address translation exceptions have priority to alignment exceptions
    | .error ex => (throw_ex cpu virt noisy, .error ex)
    | .ok phys =>
      if !is_aligned virt 4 then
        (throw_ex cpu virt noisy, .error (read_address_misaligned_exception fetch))
      else (cpu, .ok (mem.read32 phys % 2 ^ 32))

/-- rv_read_mem16 (cpu.c lines 340-359). -/
def rv_read_mem16 (cpu : rv_cpu_t) (mem : PMem) (virt : Nat) (fetch noisy : Bool) :
    rv_cpu_t × Except Nat Nat :=
  match try_read_memory_mapped_regs cpu virt 16 with
  | some v => (cpu, .ok v)
  | none =>
    match rv_convert_addr cpu mem virt false fetch noisy with
    | .error ex => (throw_ex cpu virt noisy, .error ex)
    | .ok phys =>
      if !is_aligned virt 2 then
        (throw_ex cpu virt noisy, .error (read_address_misaligned_exception fetch))
      else (cpu, .ok (mem.read16 phys % 2 ^ 16))

/-- rv_read_mem8 (cpu.c lines 361-376): no alignment check. -/
def rv_read_mem8 (cpu : rv_cpu_t) (mem : PMem) (virt : Nat) (noisy : Bool) :
    rv_cpu_t × Except Nat Nat :=
  match try_read_memory_mapped_regs cpu virt 8 with
  | some v => (cpu, .ok v)
  | none =>
    match rv_convert_addr cpu mem virt false false noisy with
    | .error ex => (throw_ex cpu virt noisy, .error ex)
    | .ok phys => (cpu, .ok (mem.read8 phys % 2 ^ 8))

/-- rv_write_mem8 (cpu.c lines 378-397); the pair is the updated CPU state
and the returned exception code. -/
def rv_write_mem8 (cpu : rv_cpu_t) (mem : PMem) (virt value : Nat) (noisy : Bool) :
    rv_cpu_t × Nat :=
  match try_write_memory_mapped_regs cpu virt value 8 with
  | some cpu2 => (cpu2, rv_exc_none)
  | none =>
    match rv_convert_addr cpu mem virt true false noisy with
    | .error ex => (throw_ex cpu virt noisy, ex)
    | .ok phys =>
      if mem.write8ok phys value then (cpu, rv_exc_none)
      else
        -- writing invalid memory: the store_amo_access_fault throw is
        -- commented out in the source
        (cpu, rv_exc_none)

/-- rv_write_mem16 (cpu.c lines 399-423). -/
def rv_write_mem16 (cpu : rv_cpu_t) (mem : PMem) (virt value : Nat) (noisy : Bool) :
    rv_cpu_t × Nat :=
  match try_write_memory_mapped_regs cpu virt value 16 with
  | some cpu2 => (cpu2, rv_exc_none)
  | none =>
    match rv_convert_addr cpu mem virt true false noisy with
    -- address translation exceptions have priority to alignment exceptions
    | .error ex => (throw_ex cpu virt noisy, ex)
    | .ok phys =>
      if !is_aligned virt 2 then
        (throw_ex cpu virt noisy, rv_exc_store_amo_address_misaligned)
      else if mem.write16ok phys value then (cpu, rv_exc_none)
      else (cpu, rv_exc_none)

/-- rv_write_mem32 (cpu.c lines 426-449). -/
def rv_write_mem32 (cpu : rv_cpu_t) (mem : PMem) (virt value : Nat) (noisy : Bool) :
    rv_cpu_t × Nat :=
  match try_write_memory_mapped_regs cpu virt value 32 with
  | some cpu2 => (cpu2, rv_exc_none)
  | none =>
    match rv_convert_addr cpu mem virt true false noisy with
    | .error ex => (throw_ex cpu virt noisy, ex)
    | .ok phys =>
      if !is_aligned virt 4 then
        (throw_ex cpu virt noisy, rv_exc_store_amo_address_misaligned)
      else if mem.write32ok phys value then (cpu, rv_exc_none)
      else (cpu, rv_exc_none)

/-! ### Trap entry (cpu.c lines 465-579) -/

/-- mstatus word after the m_trap update chain (cpu.c lines 475-494:
MPIE := MIE as flag `b`; MIE := 0; MPP := priv_mode `p`). -/
def m_trap_mstatus (m p : Nat) (b : Bool) : Nat :=
  (((if b then m ||| rv_csr_mstatus_mpie_mask else m &&& compl32 rv_csr_mstatus_mpie_mask) &&&
      compl32 rv_csr_mstatus_mie_mask) &&& compl32 rv_csr_mstatus_mpp_mask) |||
    ((p <<< rv_csr_mstatus_mpp_pos) &&& rv_csr_mstatus_mpp_mask)

/-- m_trap (cpu.c lines 465-515).  For an illegal mtvec mode the source
hits ASSERT(false); that branch is unreachable for legal states and is
modelled as leaving pc_next unchanged. -/
def m_trap (cpu : rv_cpu_t) (ex : Nat) : rv_cpu_t :=
  let is_interrupt := (ex &&& RV_INTERRUPT_EXC_BITS) != 0
  let mepc2 := if is_interrupt then cpu.pc_next else cpu.pc
  -- MPIE = MIE; MIE = 0; MPP = cpu->priv_mode
  let mst3 := m_trap_mstatus cpu.csr.mstatus cpu.priv_mode (rv_csr_mstatus_mie cpu)
  let mode := cpu.csr.mtvec &&& rv_csr_mtvec_mode_mask
  let base := cpu.csr.mtvec &&& compl32 rv_csr_mtvec_mode_mask
  let pc_next2 :=
    if mode == rv_csr_mtvec_mode_direct then base
    else if mode == rv_csr_mtvec_mode_vectored then
      if is_interrupt then (base + 4 * (ex &&& 0x7FFFFFFF)) % 2 ^ 32 else base
    else cpu.pc_next
  { cpu with
    stdby := false
    priv_mode := rv_mmode
    pc_next := pc_next2
    csr := { cpu.csr with
      mepc := mepc2
      mcause := ex
      mtval := cpu.csr.tval_next
      mstatus := mst3 } }

/-- s_trap (cpu.c lines 517-567). -/
def s_trap (cpu : rv_cpu_t) (ex : Nat) : rv_cpu_t :=
  let is_interrupt := (ex &&& RV_INTERRUPT_EXC_BITS) != 0
  let sepc2 := if is_interrupt then cpu.pc_next else cpu.pc
  -- SPIE = SIE
  let mst1 :=
    if rv_csr_sstatus_sie cpu then cpu.csr.mstatus ||| rv_csr_sstatus_spie_mask
    else cpu.csr.mstatus &&& compl32 rv_csr_sstatus_spie_mask
  -- SIE = 0
  let mst2 := mst1 &&& compl32 rv_csr_sstatus_sie_mask
  -- SPP = cpu->priv_mode
  let mst3 := (mst2 &&& compl32 rv_csr_sstatus_spp_mask) |||
    ((cpu.priv_mode <<< rv_csr_sstatus_spp_pos) &&& rv_csr_sstatus_spp_mask)
  let mode := cpu.csr.stvec &&& rv_csr_mtvec_mode_mask
  let base := cpu.csr.stvec &&& compl32 rv_csr_mtvec_mode_mask
  let pc_next2 :=
    if mode == rv_csr_mtvec_mode_direct then base
    else if mode == rv_csr_mtvec_mode_vectored then
      if is_interrupt then (base + 4 * (ex &&& 0x7FFFFFFF)) % 2 ^ 32 else base
    else cpu.pc_next
  { cpu with
    stdby := false
    priv_mode := rv_smode
    pc_next := pc_next2
    csr := { cpu.csr with
      sepc := sepc2
      scause := ex
      stval := cpu.csr.tval_next
      mstatus := mst3 } }

/-- handle_exception (cpu.c lines 569-579). -/
def handle_exception (cpu : rv_cpu_t) (ex : Nat) : rv_cpu_t :=
  let mask := RV_EXCEPTION_MASK ex
  let delegated := (cpu.csr.medeleg &&& mask) != 0
  if delegated && cpu.priv_mode != rv_mmode then s_trap cpu ex
  else m_trap cpu ex

/-- try_handle_interrupt (cpu.c lines 581-628).  The C falls through the
six machine trap_if_set checks into the supervisor block, which the
else-if chain reproduces. -/
def try_handle_interrupt (cpu : rv_cpu_t) : rv_cpu_t :=
  -- Effective mip includes the external SEIP
  let mip := cpu.csr.mip ||| (if cpu.csr.external_SEIP then rv_csr_sei_mask else 0)
  -- no interrupt pending
  if mip == 0 then cpu
  else
    -- PRIORITY: MEI, MSI, MTI, SEI, SSI, STI
    let can_trap_to_M := (cpu.priv_mode == rv_mmode && rv_csr_mstatus_mie cpu) ||
      decide (cpu.priv_mode < rv_mmode)
    let m_mask := mip &&& cpu.csr.mie &&& compl32 cpu.csr.mideleg
    let can_trap_to_S := (cpu.priv_mode == rv_smode && rv_csr_sstatus_sie cpu) ||
      decide (cpu.priv_mode < rv_smode)
    let s_mask := mip &&& cpu.csr.mie &&& rv_csr_si_mask
    if can_trap_to_M && (m_mask &&& RV_EXCEPTION_MASK rv_exc_machine_external_interrupt != 0) then
      m_trap cpu rv_exc_machine_external_interrupt
    else if can_trap_to_M && (m_mask &&& RV_EXCEPTION_MASK rv_exc_machine_software_interrupt != 0) then
      m_trap cpu rv_exc_machine_software_interrupt
    else if can_trap_to_M && (m_mask &&& RV_EXCEPTION_MASK rv_exc_machine_timer_interrupt != 0) then
      m_trap cpu rv_exc_machine_timer_interrupt
    else if can_trap_to_M && (m_mask &&& RV_EXCEPTION_MASK rv_exc_supervisor_external_interrupt != 0) then
      m_trap cpu rv_exc_supervisor_external_interrupt
    else if can_trap_to_M && (m_mask &&& RV_EXCEPTION_MASK rv_exc_supervisor_software_interrupt != 0) then
      m_trap cpu rv_exc_supervisor_software_interrupt
    else if can_trap_to_M && (m_mask &&& RV_EXCEPTION_MASK rv_exc_supervisor_timer_interrupt != 0) then
      m_trap cpu rv_exc_supervisor_timer_interrupt
    else if can_trap_to_S && (s_mask &&& RV_EXCEPTION_MASK rv_exc_supervisor_external_interrupt != 0) then
      s_trap cpu rv_exc_supervisor_external_interrupt
    else if can_trap_to_S && (s_mask &&& RV_EXCEPTION_MASK rv_exc_supervisor_software_interrupt != 0) then
      s_trap cpu rv_exc_supervisor_software_interrupt
    else if can_trap_to_S && (s_mask &&& RV_EXCEPTION_MASK rv_exc_supervisor_timer_interrupt != 0) then
      s_trap cpu rv_exc_supervisor_timer_interrupt
    else cpu

/-! ### Accounting (cpu.c lines 630-709) -/

/-- account_hmp (cpu.c lines 630-668); hpm counters are 64-bit. -/
def account_hmp (cpu : rv_cpu_t) (i : Nat) : rv_cpu_t :=
  let mask := 1 <<< (i + 3)
  let inhibited := (cpu.csr.mcountinhibit &&& mask) != 0
  if inhibited then cpu
  else
    let event := cpu.csr.hpmevents i
    let inc : Bool :=
      if event == hpm_u_cycles then cpu.priv_mode == rv_umode
      else if event == hpm_s_cycles then cpu.priv_mode == rv_smode
      else if event == hpm_m_cycles then cpu.priv_mode == rv_mmode
      else if event == hpm_w_cycles then cpu.stdby
      else false
    if inc then
      { cpu with csr := { cpu.csr with
        hpmcounters := fun j => if j == i then (cpu.csr.hpmcounters i + 1) % 2 ^ 64
                                else cpu.csr.hpmcounters j } }
    else cpu

/-- raise_timer_interrupts (cpu.c lines 670-690). -/
def raise_timer_interrupts (cpu : rv_cpu_t) : rv_cpu_t :=
  -- raise or clear scyclecmp STIP; the comparison casts cycle to uint32_t
  let mip1 :=
    if decide (cpu.csr.cycle % 2 ^ 32 ≥ cpu.csr.scyclecmp) then cpu.csr.mip ||| rv_csr_sti_mask
    else cpu.csr.mip &&& compl32 rv_csr_sti_mask
  -- raise or clear mtimecmp MTIP
  let mip2 :=
    if decide (cpu.csr.mtime ≥ cpu.csr.mtimecmp) then mip1 ||| rv_csr_mti_mask
    else mip1 &&& compl32 rv_csr_mti_mask
  { cpu with csr := { cpu.csr with mip := mip2 } }

/-- The `for (i = 0; i < 29; ++i) account_hmp(cpu, i)` loop in account. -/
def account_hpms (cpu : rv_cpu_t) : rv_cpu_t :=
  (List.range 29).foldl account_hmp cpu

/-- account (cpu.c lines 693-709); `now` is the host wall clock delivered
by current_timestamp, and the 64-bit counters wrap. -/
def account (cpu : rv_cpu_t) (exception_raised : Bool) (now : Nat) : rv_cpu_t :=
  let cycle2 :=
    if !(cpu.csr.mcountinhibit &&& 0b001 != 0) then (cpu.csr.cycle + 1) % 2 ^ 64
    else cpu.csr.cycle
  let delta := (2 ^ 64 + now % 2 ^ 64 - cpu.csr.last_tick_time % 2 ^ 64) % 2 ^ 64
  let mtime2 := (cpu.csr.mtime + delta) % 2 ^ 64
  let instret2 :=
    if !(cpu.csr.mcountinhibit &&& 0b100 != 0) && !exception_raised && !cpu.stdby then
      (cpu.csr.instret + 1) % 2 ^ 64
    else cpu.csr.instret
  let cpu2 := { cpu with csr := { cpu.csr with
    cycle := cycle2
    mtime := mtime2
    last_tick_time := now % 2 ^ 64
    instret := instret2 } }
  raise_timer_interrupts (account_hpms cpu2)

/-! ### Step engine (cpu.c lines 711-766)

Instruction fetch and execution (`execute`, the decoded-instruction cache
and the per-opcode executors) are outside the claims considered here; the
step function is parameterized by an arbitrary executor behaviour
`exec : rv_cpu_t → rv_cpu_t × Nat` giving the state after `execute` and
the exception code it returned, so every theorem about `rv_cpu_step`
holds for all executor behaviours. -/

/-- rv_cpu_step (cpu.c lines 739-766). -/
def rv_cpu_step (exec : rv_cpu_t → rv_cpu_t × Nat) (now : Nat) (cpu : rv_cpu_t) : rv_cpu_t :=
  let (cpu1, ex) := if cpu.stdby then (cpu, rv_exc_none) else exec cpu
  let cpu2 := account cpu1 (ex != rv_exc_none) now
  let cpu3 :=
    if ex != rv_exc_none then handle_exception cpu2 ex
    else try_handle_interrupt cpu2
  let cpu4 :=
    if !cpu3.stdby then
      { cpu3 with pc := cpu3.pc_next, pc_next := (cpu3.pc_next + 4) % 2 ^ 32 }
    else cpu3
  -- x0 is always 0
  { cpu4 with
    regs := fun i => if i == 0 then 0 else cpu4.regs i
    csr := { cpu4.csr with tval_next := 0 } }

/-! ### LR/SC reservation and the external interrupt API
(cpu.c lines 768-833) -/

/-- rv_sc_access (cpu.c lines 768-777). -/
def rv_sc_access (cpu : rv_cpu_t) (phys : Nat) : rv_cpu_t × Bool :=
  -- We align down because of writes that are shorter than 4 B
  let hit := cpu.reserved_addr == align_down phys 4
  if hit then ({ cpu with reserved_valid := false }, true) else (cpu, false)

/-- rv_interrupt_up (cpu.c lines 786-807). -/
def rv_interrupt_up (cpu : rv_cpu_t) (no : Nat) : rv_cpu_t :=
  -- Edge case, where we don't want to set SEIP, because SEIP is writable
  -- from M mode
  if no == RV_INTERRUPT_NO rv_exc_supervisor_external_interrupt then
    { cpu with csr := { cpu.csr with external_SEIP := true } }
  else
    -- default to MEI if no is invalid
    let no2 :=
      if no != RV_INTERRUPT_NO rv_exc_machine_software_interrupt &&
         no != RV_INTERRUPT_NO rv_exc_supervisor_software_interrupt &&
         no != RV_INTERRUPT_NO rv_exc_machine_external_interrupt then
        RV_INTERRUPT_NO rv_exc_machine_external_interrupt
      else no
    { cpu with csr := { cpu.csr with mip := cpu.csr.mip ||| RV_EXCEPTION_MASK no2 } }

/-- rv_interrupt_down (cpu.c lines 809-833). -/
def rv_interrupt_down (cpu : rv_cpu_t) (no : Nat) : rv_cpu_t :=
  if no == RV_INTERRUPT_NO rv_exc_supervisor_external_interrupt then
    { cpu with csr := { cpu.csr with external_SEIP := false } }
  else
    let no2 :=
      if no != RV_INTERRUPT_NO rv_exc_machine_software_interrupt &&
         no != RV_INTERRUPT_NO rv_exc_supervisor_software_interrupt &&
         no != RV_INTERRUPT_NO rv_exc_machine_external_interrupt then
        RV_INTERRUPT_NO rv_exc_machine_external_interrupt
      else no
    { cpu with csr := { cpu.csr with mip := cpu.csr.mip &&& compl32 (RV_EXCEPTION_MASK no2) } }

/-! ### Helper lemmas -/

theorem and_two_pow_ne_eq_testBit (x n : Nat) : ((x &&& 2 ^ n) != 0) = x.testBit n := by
  rw [Nat.and_two_pow]
  cases h : x.testBit n <;> simp [h, Nat.pos_pow_of_pos]

theorem m_trap_mstatus_mpie (m p : Nat) (b : Bool) :
    ((m_trap_mstatus m p b &&& rv_csr_mstatus_mpie_mask) != 0) = b := by
  unfold m_trap_mstatus
  rw [show compl32 rv_csr_mstatus_mpie_mask = 0xFFFFFF7F by decide,
    show compl32 rv_csr_mstatus_mie_mask = 0xFFFFFFF7 by decide,
    show compl32 rv_csr_mstatus_mpp_mask = 0xFFFFE7FF by decide,
    show rv_csr_mstatus_mpie_mask = 2 ^ 7 by decide,
    show rv_csr_mstatus_mpp_mask = 0x1800 from rfl,
    show rv_csr_mstatus_mpp_pos = 11 from rfl,
    and_two_pow_ne_eq_testBit]
  have h1 : Nat.testBit 4294967167 7 = false := by decide
  have h2 : Nat.testBit 4294967287 7 = true := by decide
  have h3 : Nat.testBit 4294961151 7 = true := by decide
  have h4 : Nat.testBit 128 7 = true := by decide
  have h5 : Nat.testBit 6144 7 = false := by decide
  cases b <;>
    simp [h1, h2, h3, h4, h5, Nat.testBit_or, Nat.testBit_and, Nat.testBit_shiftLeft]

theorem m_trap_mstatus_mie (m p : Nat) (b : Bool) :
    ((m_trap_mstatus m p b &&& rv_csr_mstatus_mie_mask) != 0) = false := by
  unfold m_trap_mstatus
  rw [show compl32 rv_csr_mstatus_mpie_mask = 0xFFFFFF7F by decide,
    show compl32 rv_csr_mstatus_mie_mask = 0xFFFFFFF7 by decide,
    show compl32 rv_csr_mstatus_mpp_mask = 0xFFFFE7FF by decide,
    show rv_csr_mstatus_mie_mask = 2 ^ 3 by decide,
    show rv_csr_mstatus_mpp_mask = 0x1800 from rfl,
    show rv_csr_mstatus_mpp_pos = 11 from rfl,
    and_two_pow_ne_eq_testBit]
  have h1 : Nat.testBit 4294967287 3 = false := by decide
  have h2 : Nat.testBit 6144 3 = false := by decide
  cases b <;> simp [h1, h2, Nat.testBit_or, Nat.testBit_and, Nat.testBit_shiftLeft]

theorem m_trap_mstatus_mpp (m p : Nat) (b : Bool) (hp : p < 4) :
    (m_trap_mstatus m p b &&& rv_csr_mstatus_mpp_mask) >>> rv_csr_mstatus_mpp_pos = p := by
  unfold m_trap_mstatus
  rw [show rv_csr_mstatus_mpp_mask = 0x1800 from rfl,
    show rv_csr_mstatus_mpp_pos = 11 from rfl,
    Nat.and_distrib_right, Nat.and_assoc,
    show (compl32 6144 &&& 6144 : Nat) = 0 by decide, Nat.and_zero,
    Nat.and_assoc, Nat.and_self]
  rw [Nat.zero_or]
  interval_cases p <;> decide

theorem tb_fff (i : Nat) : Nat.testBit 0xFFF i = decide (i < 12) := by
  rw [show (0xFFF : Nat) = 2 ^ 12 - 1 by norm_num]
  exact Nat.testBit_two_pow_sub_one _ _

theorem tb_3ff000 (i : Nat) : Nat.testBit 0x3FF000 i = (decide (i ≥ 12) && decide (i - 12 < 10)) := by
  rw [show (0x3FF000 : Nat) = (2 ^ 10 - 1) <<< 12 by norm_num [Nat.shiftLeft_eq],
    Nat.testBit_shiftLeft, Nat.testBit_two_pow_sub_one]

theorem tb_3ffc00 (i : Nat) : Nat.testBit 0x3FFC00 i = (decide (i ≥ 10) && decide (i - 10 < 12)) := by
  rw [show (0x3FFC00 : Nat) = (2 ^ 12 - 1) <<< 10 by norm_num [Nat.shiftLeft_eq],
    Nat.testBit_shiftLeft, Nat.testBit_two_pow_sub_one]

theorem tb_3ff (i : Nat) : Nat.testBit 0x3FF i = decide (i < 10) := by
  rw [show (0x3FF : Nat) = 2 ^ 10 - 1 by norm_num]
  exact Nat.testBit_two_pow_sub_one _ _

theorem tb_mod4096 (x i : Nat) : (x % 4096).testBit i = (decide (i < 12) && x.testBit i) := by
  rw [show (4096 : Nat) = 2 ^ 12 by norm_num]
  exact Nat.testBit_mod_two_pow x 12 i

theorem tb_mod2p22 (x i : Nat) : (x % 4194304).testBit i = (decide (i < 22) && x.testBit i) := by
  rw [show (4194304 : Nat) = 2 ^ 22 by norm_num]
  exact Nat.testBit_mod_two_pow x 22 i

theorem make_phys_low12 (virt pte : Nat) (mega : Bool) :
    make_phys_from_ppn virt pte mega % 2 ^ 12 = virt % 2 ^ 12 := by
  unfold make_phys_from_ppn pte_ppn1 pte_ppn0 pte_ppn
  apply Nat.eq_of_testBit_eq
  intro i
  rcases Nat.lt_or_ge i 12 with hi | hi
  · have d1 : decide (i < 12) = true := decide_eq_true hi
    have d2 : decide (12 ≤ i) = false := decide_eq_false (Nat.not_le.mpr hi)
    cases mega <;>
      simp [tb_mod4096, Nat.testBit_or, Nat.testBit_and,
        Nat.testBit_shiftLeft, tb_fff, tb_3ff000, tb_3ffc00, tb_3ff, ge_iff_le, d1, d2]
  · have d1 : decide (i < 12) = false := decide_eq_false (Nat.not_lt.mpr hi)
    cases mega <;> simp [tb_mod4096, d1]

theorem make_phys_mega_low22 (virt pte : Nat) :
    make_phys_from_ppn virt pte true % 2 ^ 22 = virt % 2 ^ 22 := by
  have key : ∀ w v i : Nat,
      (((w &&& 4193280) <<< 12 ||| (v &&& 4190208) ||| (v &&& 4095)) % 4194304).testBit i =
        ((v % 4194304)).testBit i := by
    intro w v i
    by_cases h22 : i < 22
    · by_cases h12 : 12 ≤ i
      · simp only [tb_mod2p22, Nat.testBit_or, Nat.testBit_and, Nat.testBit_shiftLeft,
          tb_fff, tb_3ff000, tb_3ffc00, ge_iff_le]
        simp [h22, h12, decide_eq_false (by omega : ¬ (10 ≤ i - 12)),
          decide_eq_true (by omega : i - 12 < 10), decide_eq_false (by omega : ¬ (i < 12))]
      · simp only [tb_mod2p22, Nat.testBit_or, Nat.testBit_and, Nat.testBit_shiftLeft,
          tb_fff, tb_3ff000, tb_3ffc00, ge_iff_le]
        simp [h22, h12, decide_eq_true (by omega : i < 12)]
    · simp only [tb_mod2p22]
      simp [h22]
  unfold make_phys_from_ppn pte_ppn1 pte_ppn0 pte_ppn
  apply Nat.eq_of_testBit_eq
  intro i
  exact key (pte >>> 10) virt i

theorem make_phys_mega_high (virt pte : Nat) :
    make_phys_from_ppn virt pte true >>> 22 = pte_ppn1 pte >>> 10 := by
  have key : ∀ w v j : Nat,
      (((w &&& 4193280) <<< 12 ||| (v &&& 4190208) ||| (v &&& 4095)) >>> 22).testBit j =
        ((w &&& 4193280) >>> 10).testBit j := by
    intro w v j
    rw [Nat.testBit_shiftRight, Nat.testBit_shiftRight]
    have ha : 22 + j - 12 = 10 + j := by omega
    simp only [Nat.testBit_or, Nat.testBit_and, Nat.testBit_shiftLeft, tb_fff, tb_3ff000,
      ge_iff_le, ha]
    simp [decide_eq_true (by omega : 12 ≤ 22 + j),
      decide_eq_false (by omega : ¬ (22 + j - 12 < 10)),
      decide_eq_false (by omega : ¬ (22 + j < 12))]
  unfold make_phys_from_ppn pte_ppn1 pte_ppn0 pte_ppn
  apply Nat.eq_of_testBit_eq
  intro j
  exact key (pte >>> 10) virt j

theorem make_phys_4k_high (virt pte : Nat) (hp : pte < 2 ^ 32) :
    make_phys_from_ppn virt pte false >>> 12 = pte_ppn pte := by
  have key : ∀ w v j : Nat, w < 2 ^ 22 →
      (((w &&& 4193280) <<< 12 ||| (w &&& 1023) <<< 12 ||| (v &&& 4095)) >>> 12).testBit j =
        w.testBit j := by
    intro w v j hw
    rw [Nat.testBit_shiftRight]
    have ha : 12 + j - 12 = j := by omega
    simp only [Nat.testBit_or, Nat.testBit_and, Nat.testBit_shiftLeft, tb_fff, tb_3ffc00,
      tb_3ff, ge_iff_le, ha]
    by_cases h22 : j < 22
    · by_cases h10 : j < 10
      · simp [decide_eq_true (by omega : 12 ≤ 12 + j), decide_eq_true h10,
          decide_eq_false (by omega : ¬ (10 ≤ j)), decide_eq_false (by omega : ¬ (12 + j < 12))]
      · simp [decide_eq_true (by omega : 12 ≤ 12 + j), decide_eq_false h10,
          decide_eq_true (by omega : 10 ≤ j), decide_eq_true (by omega : j - 10 < 12),
          decide_eq_false (by omega : ¬ (12 + j < 12))]
    · have hz : w.testBit j = false :=
        Nat.testBit_lt_two_pow (lt_of_lt_of_le hw (Nat.pow_le_pow_right (by norm_num) (by omega)))
      simp [decide_eq_true (by omega : 12 ≤ 12 + j), hz,
        decide_eq_false (by omega : ¬ (12 + j < 12))]
  have hppn : pte >>> 10 < 2 ^ 22 := by
    rw [Nat.shiftRight_eq_div_pow]
    exact Nat.div_lt_of_lt_mul (by norm_num at hp ⊢; omega)
  unfold make_phys_from_ppn pte_ppn1 pte_ppn0 pte_ppn
  apply Nat.eq_of_testBit_eq
  intro j
  exact key (pte >>> 10) virt j hppn

/-! ### Verified claims -/

/-- C8: rv_sc_access returns true and clears reserved_valid exactly when
the 4-byte-aligned physical address equals reserved_addr; otherwise it
returns false and leaves the CPU state (reserved_valid and reserved_addr
included) unchanged. -/
theorem claim_C8_sc_access (cpu : rv_cpu_t) (phys : Nat) :
    rv_sc_access cpu phys =
      if cpu.reserved_addr = align_down phys 4 then
        ({ cpu with reserved_valid := false }, true)
      else (cpu, false) := by
  unfold rv_sc_access
  by_cases h : cpu.reserved_addr = align_down phys 4 <;> simp [h]

/-- C6: handle_exception routes a synchronous exception to s_trap exactly
when the medeleg bit of its cause code is set and the current privilege
mode is not M; in every other case it routes to m_trap. -/
theorem claim_C6_exception_delegation (cpu : rv_cpu_t) (ex : Nat) :
    handle_exception cpu ex =
      if cpu.csr.medeleg.testBit (ex &&& 0x7FFFFFFF) ∧ cpu.priv_mode ≠ rv_mmode then
        s_trap cpu ex
      else m_trap cpu ex := by
  unfold handle_exception RV_EXCEPTION_MASK
  simp only [Nat.shiftLeft_eq, Nat.one_mul, and_two_pow_ne_eq_testBit]
  by_cases hd : cpu.csr.medeleg.testBit (ex &&& 0x7FFFFFFF) <;>
    by_cases hp : cpu.priv_mode = rv_mmode <;> simp [hd, hp]

/-- C9: rv_interrupt_up with the supervisor-external code (9) only sets
external_SEIP and leaves csr.mip (the software SEIP bit included)
unchanged; with MSI (3), SSI (1) or MEI (11) it sets the corresponding
mip bit; any other number is coerced to MEI.  rv_interrupt_down is
symmetric, clearing external_SEIP or the corresponding mip bit. -/
theorem claim_C9_interrupt_api (cpu : rv_cpu_t) (no : Nat) :
    (rv_interrupt_up cpu no =
      if no = 9 then { cpu with csr := { cpu.csr with external_SEIP := true } }
      else if no = 3 ∨ no = 1 ∨ no = 11 then
        { cpu with csr := { cpu.csr with mip := cpu.csr.mip ||| 2 ^ no } }
      else { cpu with csr := { cpu.csr with mip := cpu.csr.mip ||| 2 ^ 11 } }) ∧
    (rv_interrupt_down cpu no =
      if no = 9 then { cpu with csr := { cpu.csr with external_SEIP := false } }
      else if no = 3 ∨ no = 1 ∨ no = 11 then
        { cpu with csr := { cpu.csr with mip := cpu.csr.mip &&& compl32 (2 ^ no) } }
      else { cpu with csr := { cpu.csr with mip := cpu.csr.mip &&& compl32 (2 ^ 11) } }) := by
  have h9 : RV_INTERRUPT_NO rv_exc_supervisor_external_interrupt = 9 := by decide
  have h3 : RV_INTERRUPT_NO rv_exc_machine_software_interrupt = 3 := by decide
  have h1 : RV_INTERRUPT_NO rv_exc_supervisor_software_interrupt = 1 := by decide
  have h11 : RV_INTERRUPT_NO rv_exc_machine_external_interrupt = 11 := by decide
  unfold rv_interrupt_up rv_interrupt_down
  rw [h9, h3, h1, h11]
  by_cases e9 : no = 9
  · simp [e9]
  · by_cases e3 : no = 3
    · subst e3; simp [RV_EXCEPTION_MASK, show ((1 : Nat) <<< (3 &&& 2147483647)) = 2 ^ 3 by decide]
    · by_cases e1 : no = 1
      · subst e1; simp [RV_EXCEPTION_MASK, show ((1 : Nat) <<< (1 &&& 2147483647)) = 2 ^ 1 by decide]
      · by_cases e11 : no = 11
        · subst e11; simp [RV_EXCEPTION_MASK, show ((1 : Nat) <<< (11 &&& 2147483647)) = 2 ^ 11 by decide]
        · simp [e9, e3, e1, e11, RV_EXCEPTION_MASK,
            show ((1 : Nat) <<< (11 &&& 2147483647)) = 2 ^ 11 by decide]

/-- Concrete CSR file used to instantiate theorems with hypotheses. -/
def csrW : rv_csr_t :=
  { mstatus := 0, mie := 0, mip := 0, mtvec := 0x100, stvec := 0x200,
    mepc := 0, sepc := 0, mcause := 0, scause := 0, mtval := 0, stval := 0,
    medeleg := 0, mideleg := 0, satp := 0, mtime := 0, mtimecmp := 0,
    scyclecmp := 0, cycle := 0, instret := 0,
    hpmcounters := fun _ => 0, hpmevents := fun _ => 0,
    mcountinhibit := 0, mhartid := 0, external_SEIP := false,
    tval_next := 0, last_tick_time := 0 }

/-- Concrete CPU state used to instantiate theorems with hypotheses. -/
def cpuW : rv_cpu_t :=
  { pc := 0x2000, pc_next := 0x2004, regs := fun _ => 0, priv_mode := 3,
    stdby := false, reserved_addr := 0, reserved_valid := false, csr := csrW }

/-- Concrete physical memory whose every 32-bit word reads as zero and on
which every write fails. -/
def memW : PMem :=
  { read8 := fun _ => 0, read16 := fun _ => 0, read32 := fun _ => 0,
    write8ok := fun _ _ => false, write16ok := fun _ _ => false,
    write32ok := fun _ _ => false }

/-- C1: m_trap loads mepc with the interrupted pc (pc_next for an
interrupt, pc for an exception), mcause with the cause, mtval with
tval_next, saves MIE into MPIE, clears MIE, saves the old privilege mode
into MPP, enters M-mode, clears stdby, and sets pc_next from mtvec:
base for direct mode, base + 4*cause for a vectored interrupt, base for a
vectored exception. -/
theorem claim_C1_m_trap (cpu : rv_cpu_t) (ex : Nat)
    (_hex : ex ≠ rv_exc_none) (hpriv : cpu.priv_mode < 4) :
    (m_trap cpu ex).csr.mepc =
        (if ex &&& RV_INTERRUPT_EXC_BITS ≠ 0 then cpu.pc_next else cpu.pc) ∧
    (m_trap cpu ex).csr.mcause = ex ∧
    (m_trap cpu ex).csr.mtval = cpu.csr.tval_next ∧
    rv_csr_mstatus_mpie (m_trap cpu ex) = rv_csr_mstatus_mie cpu ∧
    rv_csr_mstatus_mie (m_trap cpu ex) = false ∧
    rv_csr_mstatus_mpp (m_trap cpu ex) = cpu.priv_mode ∧
    (m_trap cpu ex).priv_mode = rv_mmode ∧
    (m_trap cpu ex).stdby = false ∧
    (cpu.csr.mtvec &&& rv_csr_mtvec_mode_mask = rv_csr_mtvec_mode_direct →
      (m_trap cpu ex).pc_next = cpu.csr.mtvec &&& compl32 rv_csr_mtvec_mode_mask) ∧
    (cpu.csr.mtvec &&& rv_csr_mtvec_mode_mask = rv_csr_mtvec_mode_vectored →
      ex &&& RV_INTERRUPT_EXC_BITS ≠ 0 →
      (m_trap cpu ex).pc_next =
        ((cpu.csr.mtvec &&& compl32 rv_csr_mtvec_mode_mask) + 4 * (ex &&& 0x7FFFFFFF)) % 2 ^ 32) ∧
    (cpu.csr.mtvec &&& rv_csr_mtvec_mode_mask = rv_csr_mtvec_mode_vectored →
      ex &&& RV_INTERRUPT_EXC_BITS = 0 →
      (m_trap cpu ex).pc_next = cpu.csr.mtvec &&& compl32 rv_csr_mtvec_mode_mask) := by
  refine ⟨?_, rfl, rfl, ?_, ?_, ?_, rfl, rfl, ?_, ?_, ?_⟩
  · by_cases h : ex &&& RV_INTERRUPT_EXC_BITS = 0 <;> simp [m_trap, h]
  · exact m_trap_mstatus_mpie cpu.csr.mstatus cpu.priv_mode (rv_csr_mstatus_mie cpu)
  · exact m_trap_mstatus_mie cpu.csr.mstatus cpu.priv_mode (rv_csr_mstatus_mie cpu)
  · exact m_trap_mstatus_mpp cpu.csr.mstatus cpu.priv_mode (rv_csr_mstatus_mie cpu) hpriv
  · intro h
    simp [m_trap, h, rv_csr_mtvec_mode_direct]
  · intro h hi
    simp [m_trap, h, rv_csr_mtvec_mode_direct, rv_csr_mtvec_mode_vectored, hi]
  · intro h hi
    simp [m_trap, h, rv_csr_mtvec_mode_direct, rv_csr_mtvec_mode_vectored, hi]

/-- Witness for C1 at a concrete input (illegal-instruction trap from
M-mode with a direct-mode mtvec). -/
theorem claim_C1_m_trap_witness :
    rv_exc_illegal_instruction ≠ rv_exc_none ∧ cpuW.priv_mode < 4 ∧
      rv_csr_mstatus_mpp (m_trap cpuW rv_exc_illegal_instruction) = cpuW.priv_mode ∧
      (m_trap cpuW rv_exc_illegal_instruction).csr.mepc = cpuW.pc :=
  have h := claim_C1_m_trap cpuW rv_exc_illegal_instruction (by decide) (by decide)
  ⟨by decide, by decide, h.2.2.2.2.2.1, by
    have h1 := h.1
    rw [if_neg (by decide)] at h1
    exact h1⟩


/-- CPU state exhibiting the MPRV/fetch divergence: MPRV set, MPP = U,
priv_mode = M, satp non-bare (root page table at physical 0). -/
def cpuC2 : rv_cpu_t :=
  { cpuW with
    priv_mode := 3,
    csr := { csrW with mstatus := 0x20000, satp := 0x80000000 } }

/-- C2, evaluated at the failing input: the source computes the effective
privilege for the Sv32 walk as MPP whenever MPRV is set, for FETCHES as
well (cpu.c line 157 has no fetch exemption).  With MPRV = 1, MPP = U,
priv_mode = M and satp non-bare, a fetch is therefore translated — here
the walk reads PTE word 0 and faults — whereas the claim (effective
privilege of a fetch is priv_mode = M, hence translation inactive)
requires the untranslated address to pass through with no fault. -/
theorem claim_C2_mprv_fetch_code_eval :
    rv_csr_mstatus_mprv cpuC2 = true ∧
    rv_csr_mstatus_mpp cpuC2 = rv_umode ∧
    cpuC2.priv_mode = rv_mmode ∧
    rv_csr_satp_is_bare cpuC2 = false ∧
    rv_convert_addr cpuC2 memW 0x1000 false true true =
      .error rv_exc_instruction_page_fault := by
  refine ⟨by decide, by decide, by decide, by decide, ?_⟩
  rfl

/-- C4: an address translated successfully by rv_convert_addr keeps the
low 12 bits of the virtual address; a megapage (level-1 leaf) translation
keeps the low 22 bits and takes the physical bits above 21 (PPN1) from
the PTE; a 4 KiB translation takes the whole PPN from the PTE. -/
theorem claim_C4_sv32_offset (cpu : rv_cpu_t) (mem : PMem) (virt : Nat)
    (wr fetch noisy : Bool) (phys : Nat) (info : Option (Bool × Nat))
    (h : rv_convert_addr_aux cpu mem virt wr fetch noisy = .ok (phys, info)) :
    phys % 2 ^ 12 = virt % 2 ^ 12 ∧
    (∀ pte, info = some (true, pte) →
      phys % 2 ^ 22 = virt % 2 ^ 22 ∧ phys >>> 22 = pte_ppn1 pte >>> 10) ∧
    (∀ pte, info = some (false, pte) → phys >>> 12 = pte_ppn pte) := by
  simp only [rv_convert_addr_aux, sv32_finish] at h
  split at h
  · -- translation inactive: identity
    simp only [Except.ok.injEq, Prod.mk.injEq] at h
    obtain ⟨h1, h2⟩ := h
    subst h1
    refine ⟨rfl, ?_, ?_⟩ <;> intro pte hinfo <;> rw [← h2] at hinfo <;> simp at hinfo
  · split at h
    · simp at h
    · split at h
      · -- level-1 leaf (megapage)
        split at h
        · simp at h
        · split at h
          · simp at h
          · simp only [Except.ok.injEq, Prod.mk.injEq] at h
            obtain ⟨h1, h2⟩ := h
            subst h1
            refine ⟨make_phys_low12 .., ?_, ?_⟩ <;> intro pte hinfo <;> rw [← h2] at hinfo <;>
              simp only [Option.some.injEq, Prod.mk.injEq] at hinfo
            · obtain ⟨_, hpte⟩ := hinfo
              subst hpte
              exact ⟨make_phys_mega_low22 .., make_phys_mega_high ..⟩
            · exact absurd hinfo.1 (by simp)
      · -- second level leaf (4 KiB page)
        split at h
        · simp at h
        · split at h
          · simp at h
          · split at h
            · simp at h
            · simp only [Except.ok.injEq, Prod.mk.injEq] at h
              obtain ⟨h1, h2⟩ := h
              subst h1
              refine ⟨make_phys_low12 _ _ _, ?_, ?_⟩ <;> intro pte hinfo <;> rw [← h2] at hinfo <;>
                simp only [Option.some.injEq, Prod.mk.injEq] at hinfo
              · exact absurd hinfo.1 (by simp)
              · obtain ⟨_, hpte⟩ := hinfo
                subst hpte
                refine make_phys_4k_high _ _ ?_
                refine Nat.or_lt_two_pow (Nat.or_lt_two_pow (Nat.mod_lt _ (by norm_num)) (by norm_num)) ?_
                split <;> norm_num

/-- CPU state with an active Sv32 translation in S-mode. -/
def cpuC4 : rv_cpu_t :=
  { cpuW with priv_mode := 1, csr := { csrW with satp := 0x80000000 } }

/-- Physical memory whose every 32-bit word reads as the PTE word 3
(valid readable leaf with PPN 0). -/
def memC4 : PMem :=
  { memW with read32 := fun _ => 3 }

/-- Witness for C4 on a concrete megapage walk. -/
theorem claim_C4_sv32_offset_witness :
    rv_convert_addr_aux cpuC4 memC4 0x1234 false false true =
      .ok (0x1234, some (true, 0x43)) ∧
    (0x1234 : Nat) % 2 ^ 12 = (0x1234 : Nat) % 2 ^ 12 ∧
    (0x1234 : Nat) % 2 ^ 22 = (0x1234 : Nat) % 2 ^ 22 ∧
    (0x1234 : Nat) >>> 22 = pte_ppn1 0x43 >>> 10 :=
  have h : rv_convert_addr_aux cpuC4 memC4 0x1234 false false true =
      .ok (0x1234, some (true, 0x43)) := by rfl
  have hc := claim_C4_sv32_offset cpuC4 memC4 0x1234 false false true 0x1234
    (some (true, 0x43)) h
  ⟨h, hc.1, (hc.2.1 0x43 rfl).1, (hc.2.1 0x43 rfl).2⟩


/-- C10: a store whose address translates without a page fault, is
naturally aligned for its width, and does not hit the memory-mapped timer
registers returns rv_exc_none and leaves the CPU state (tval_next
included) unchanged — for every physical memory, so in particular when the
underlying physical write fails (the store_amo_access_fault throw is
commented out in the source); no store/AMO access fault is raised at the
CPU interface. -/
theorem claim_C10_silent_store_failure (cpu : rv_cpu_t) (mem : PMem)
    (virt value : Nat) (noisy : Bool) :
    (∀ phys, try_write_memory_mapped_regs cpu virt value 8 = none →
      rv_convert_addr cpu mem virt true false noisy = .ok phys →
      rv_write_mem8 cpu mem virt value noisy = (cpu, rv_exc_none)) ∧
    (∀ phys, try_write_memory_mapped_regs cpu virt value 16 = none →
      rv_convert_addr cpu mem virt true false noisy = .ok phys →
      is_aligned virt 2 = true →
      rv_write_mem16 cpu mem virt value noisy = (cpu, rv_exc_none)) ∧
    (∀ phys, try_write_memory_mapped_regs cpu virt value 32 = none →
      rv_convert_addr cpu mem virt true false noisy = .ok phys →
      is_aligned virt 4 = true →
      rv_write_mem32 cpu mem virt value noisy = (cpu, rv_exc_none)) := by
  refine ⟨?_, ?_, ?_⟩
  · intro phys htry hconv
    simp only [rv_write_mem8, htry, hconv]
    split <;> rfl
  · intro phys htry hconv halign
    simp only [rv_write_mem16, htry, hconv, halign, Bool.not_true, Bool.false_eq_true,
      if_false]
    split <;> rfl
  · intro phys htry hconv halign
    simp only [rv_write_mem32, htry, hconv, halign, Bool.not_true, Bool.false_eq_true,
      if_false]
    split <;> rfl

/-- Witness for C10: at cpuW (M-mode, bare satp) the address 0x100
bypasses the timer registers, translates identically, and the write to
memW fails, yet every width returns rv_exc_none with the state intact. -/
theorem claim_C10_silent_store_failure_witness :
    try_write_memory_mapped_regs cpuW 0x100 5 32 = none ∧
    rv_convert_addr cpuW memW 0x100 true false true = .ok 0x100 ∧
    is_aligned 0x100 4 = true ∧
    memW.write32ok 0x100 5 = false ∧
    rv_write_mem32 cpuW memW 0x100 5 true = (cpuW, rv_exc_none) :=
  ⟨by rfl, by rfl, by rfl, by rfl,
    (claim_C10_silent_store_failure cpuW memW 0x100 5 true).2.2 0x100
      (by rfl) (by rfl) (by rfl)⟩

/-- C3: for accesses that do not hit the memory-mapped timer registers,
a page fault produced by address translation is returned as is, even for
a misaligned address; the misalignment exception (load / store_amo /
instruction variant according to the access kind) is returned only when
translation succeeded and the address is not naturally aligned, and an
aligned, translated access raises no exception at all. -/
theorem claim_C3_pf_priority (cpu : rv_cpu_t) (mem : PMem) (virt value : Nat)
    (fetch noisy : Bool) :
    (try_read_memory_mapped_regs cpu virt 32 = none →
      (∀ e, rv_convert_addr cpu mem virt false fetch noisy = .error e →
        (rv_read_mem32 cpu mem virt fetch noisy).2 = .error e) ∧
      (∀ phys, rv_convert_addr cpu mem virt false fetch noisy = .ok phys →
        is_aligned virt 4 = false →
        (rv_read_mem32 cpu mem virt fetch noisy).2 =
          .error (if fetch then rv_exc_instruction_address_misaligned
                  else rv_exc_load_address_misaligned)) ∧
      (∀ phys, rv_convert_addr cpu mem virt false fetch noisy = .ok phys →
        is_aligned virt 4 = true →
        (rv_read_mem32 cpu mem virt fetch noisy).2 = .ok (mem.read32 phys % 2 ^ 32))) ∧
    (try_read_memory_mapped_regs cpu virt 16 = none →
      (∀ e, rv_convert_addr cpu mem virt false fetch noisy = .error e →
        (rv_read_mem16 cpu mem virt fetch noisy).2 = .error e) ∧
      (∀ phys, rv_convert_addr cpu mem virt false fetch noisy = .ok phys →
        is_aligned virt 2 = false →
        (rv_read_mem16 cpu mem virt fetch noisy).2 =
          .error (if fetch then rv_exc_instruction_address_misaligned
                  else rv_exc_load_address_misaligned)) ∧
      (∀ phys, rv_convert_addr cpu mem virt false fetch noisy = .ok phys →
        is_aligned virt 2 = true →
        (rv_read_mem16 cpu mem virt fetch noisy).2 = .ok (mem.read16 phys % 2 ^ 16))) ∧
    (try_write_memory_mapped_regs cpu virt value 16 = none →
      (∀ e, rv_convert_addr cpu mem virt true false noisy = .error e →
        (rv_write_mem16 cpu mem virt value noisy).2 = e) ∧
      (∀ phys, rv_convert_addr cpu mem virt true false noisy = .ok phys →
        is_aligned virt 2 = false →
        (rv_write_mem16 cpu mem virt value noisy).2 = rv_exc_store_amo_address_misaligned) ∧
      (∀ phys, rv_convert_addr cpu mem virt true false noisy = .ok phys →
        is_aligned virt 2 = true →
        (rv_write_mem16 cpu mem virt value noisy).2 = rv_exc_none)) ∧
    (try_write_memory_mapped_regs cpu virt value 32 = none →
      (∀ e, rv_convert_addr cpu mem virt true false noisy = .error e →
        (rv_write_mem32 cpu mem virt value noisy).2 = e) ∧
      (∀ phys, rv_convert_addr cpu mem virt true false noisy = .ok phys →
        is_aligned virt 4 = false →
        (rv_write_mem32 cpu mem virt value noisy).2 = rv_exc_store_amo_address_misaligned) ∧
      (∀ phys, rv_convert_addr cpu mem virt true false noisy = .ok phys →
        is_aligned virt 4 = true →
        (rv_write_mem32 cpu mem virt value noisy).2 = rv_exc_none)) := by
  refine ⟨fun htry => ⟨?_, ?_, ?_⟩, fun htry => ⟨?_, ?_, ?_⟩,
    fun htry => ⟨?_, ?_, ?_⟩, fun htry => ⟨?_, ?_, ?_⟩⟩
  · intro e hconv
    simp [rv_read_mem32, htry, hconv, read_address_misaligned_exception]
  · intro phys hconv halign
    simp [rv_read_mem32, htry, hconv, halign, read_address_misaligned_exception]
  · intro phys hconv halign
    simp [rv_read_mem32, htry, hconv, halign]
  · intro e hconv
    simp [rv_read_mem16, htry, hconv, read_address_misaligned_exception]
  · intro phys hconv halign
    simp [rv_read_mem16, htry, hconv, halign, read_address_misaligned_exception]
  · intro phys hconv halign
    simp [rv_read_mem16, htry, hconv, halign]
  · intro e hconv
    simp [rv_write_mem16, htry, hconv]
  · intro phys hconv halign
    simp [rv_write_mem16, htry, hconv, halign]
  · intro phys hconv halign
    simp only [rv_write_mem16, htry, hconv, halign, Bool.not_true, Bool.false_eq_true, if_false]
    split <;> rfl
  · intro e hconv
    simp [rv_write_mem32, htry, hconv]
  · intro phys hconv halign
    simp [rv_write_mem32, htry, hconv, halign]
  · intro phys hconv halign
    simp only [rv_write_mem32, htry, hconv, halign, Bool.not_true, Bool.false_eq_true, if_false]
    split <;> rfl

/-- Witness for C3: at cpuW the virtual address 0x102 bypasses the timer
registers, translates identically (bare satp), is 2-aligned but not
4-aligned, so the 32-bit read returns the load-misalignment fault and the
16-bit read succeeds. -/
theorem claim_C3_pf_priority_witness :
    try_read_memory_mapped_regs cpuW 0x102 32 = none ∧
    rv_convert_addr cpuW memW 0x102 false false true = .ok 0x102 ∧
    is_aligned 0x102 4 = false ∧
    (rv_read_mem32 cpuW memW 0x102 false true).2 = .error rv_exc_load_address_misaligned :=
  have hc := (claim_C3_pf_priority cpuW memW 0x102 5 false true).1 (by rfl)
  ⟨by rfl, by rfl, by rfl, by
    have h := hc.2.1 0x102 (by rfl) (by rfl)
    rw [if_neg (by simp)] at h
    exact h⟩


/-- Priority selection used to state C5: the first bit position in `l`
that is pending in `mask`. -/
def first_pending (mask : Nat) (l : List Nat) : Option Nat :=
  l.find? (fun n => mask.testBit n)

set_option maxHeartbeats 2000000 in
/-- C5: interrupt delivery works on the effective mip (csr.mip with the
SEIP bit forced while external_SEIP is set); it traps to M-mode iff
(priv = M and MIE) or priv < M and some interrupt in
mip AND mie AND NOT mideleg is pending, taking the highest-priority one in
the order MEI, MSI, MTI, SEI, SSI, STI; otherwise it traps to S-mode iff
(priv = S and SIE) or priv < S and some interrupt in
mip AND mie AND S-mask is pending, in the order SEI, SSI, STI; at most one
interrupt is taken (the result applies at most one trap). -/
theorem claim_C5_interrupt_delivery (cpu : rv_cpu_t) :
    try_handle_interrupt cpu =
      (let emip := cpu.csr.mip ||| (if cpu.csr.external_SEIP then rv_csr_sei_mask else 0)
       let m_act := emip &&& cpu.csr.mie &&& compl32 cpu.csr.mideleg
       let s_act := emip &&& cpu.csr.mie &&& rv_csr_si_mask
       let canM := (cpu.priv_mode == rv_mmode && rv_csr_mstatus_mie cpu) ||
         decide (cpu.priv_mode < rv_mmode)
       let canS := (cpu.priv_mode == rv_smode && rv_csr_sstatus_sie cpu) ||
         decide (cpu.priv_mode < rv_smode)
       match (if canM then first_pending m_act [11, 3, 7, 9, 1, 5] else none) with
       | some n => m_trap cpu (RV_INTERRUPT_EXC_BITS + n)
       | none =>
         match (if canS then first_pending s_act [9, 1, 5] else none) with
         | some n => s_trap cpu (RV_INTERRUPT_EXC_BITS + n)
         | none => cpu) := by
  have e11 : RV_EXCEPTION_MASK rv_exc_machine_external_interrupt = 2 ^ 11 := by decide
  have e3 : RV_EXCEPTION_MASK rv_exc_machine_software_interrupt = 2 ^ 3 := by decide
  have e7 : RV_EXCEPTION_MASK rv_exc_machine_timer_interrupt = 2 ^ 7 := by decide
  have e9 : RV_EXCEPTION_MASK rv_exc_supervisor_external_interrupt = 2 ^ 9 := by decide
  have e1 : RV_EXCEPTION_MASK rv_exc_supervisor_software_interrupt = 2 ^ 1 := by decide
  have e5 : RV_EXCEPTION_MASK rv_exc_supervisor_timer_interrupt = 2 ^ 5 := by decide
  unfold try_handle_interrupt first_pending
  rw [e11, e3, e7, e9, e1, e5]
  simp only [and_two_pow_ne_eq_testBit]
  by_cases h0 : (cpu.csr.mip ||| (if cpu.csr.external_SEIP then rv_csr_sei_mask else 0)) = 0
  · simp [h0, List.find?]
  · rw [if_neg (by simpa using h0)]
    split_ifs <;>
      simp_all [List.find?_cons, Bool.and_eq_true,
        rv_exc_machine_external_interrupt, rv_exc_machine_software_interrupt,
        rv_exc_machine_timer_interrupt, rv_exc_supervisor_external_interrupt,
        rv_exc_supervisor_software_interrupt, rv_exc_supervisor_timer_interrupt]


/-- Fields relevant to the timer-interrupt invariant are untouched by
account_hmp (it only increments a hpm counter). -/
theorem account_hmp_timers (cpu : rv_cpu_t) (i : Nat) :
    (account_hmp cpu i).csr.mip = cpu.csr.mip ∧
    (account_hmp cpu i).csr.mtime = cpu.csr.mtime ∧
    (account_hmp cpu i).csr.mtimecmp = cpu.csr.mtimecmp ∧
    (account_hmp cpu i).csr.cycle = cpu.csr.cycle ∧
    (account_hmp cpu i).csr.scyclecmp = cpu.csr.scyclecmp := by
  simp only [account_hmp]
  split_ifs <;> exact ⟨rfl, rfl, rfl, rfl, rfl⟩

/-- The hpm accounting loop preserves the same fields. -/
theorem account_hpms_timers (cpu : rv_cpu_t) :
    (account_hpms cpu).csr.mip = cpu.csr.mip ∧
    (account_hpms cpu).csr.mtime = cpu.csr.mtime ∧
    (account_hpms cpu).csr.mtimecmp = cpu.csr.mtimecmp ∧
    (account_hpms cpu).csr.cycle = cpu.csr.cycle ∧
    (account_hpms cpu).csr.scyclecmp = cpu.csr.scyclecmp := by
  have key : ∀ (l : List Nat) (c : rv_cpu_t),
      (l.foldl account_hmp c).csr.mip = c.csr.mip ∧
      (l.foldl account_hmp c).csr.mtime = c.csr.mtime ∧
      (l.foldl account_hmp c).csr.mtimecmp = c.csr.mtimecmp ∧
      (l.foldl account_hmp c).csr.cycle = c.csr.cycle ∧
      (l.foldl account_hmp c).csr.scyclecmp = c.csr.scyclecmp := by
    intro l
    induction l with
    | nil => exact fun c => ⟨rfl, rfl, rfl, rfl, rfl⟩
    | cons a t ih =>
      intro c
      have h1 := account_hmp_timers c a
      have h2 := ih (account_hmp c a)
      exact ⟨h2.1.trans h1.1, h2.2.1.trans h1.2.1, h2.2.2.1.trans h1.2.2.1,
        h2.2.2.2.1.trans h1.2.2.2.1, h2.2.2.2.2.trans h1.2.2.2.2⟩
  exact key (List.range 29) cpu

/-- raise_timer_interrupts sets MTIP iff mtime is at least mtimecmp and
STIP iff the low 32 bits of cycle are at least scyclecmp, and leaves the
compared registers alone. -/
theorem raise_timer_spec (cpu : rv_cpu_t) :
    (((raise_timer_interrupts cpu).csr.mip &&& rv_csr_mti_mask) != 0) =
      decide (cpu.csr.mtime ≥ cpu.csr.mtimecmp) ∧
    (((raise_timer_interrupts cpu).csr.mip &&& rv_csr_sti_mask) != 0) =
      decide (cpu.csr.cycle % 2 ^ 32 ≥ cpu.csr.scyclecmp) ∧
    (raise_timer_interrupts cpu).csr.mtime = cpu.csr.mtime ∧
    (raise_timer_interrupts cpu).csr.mtimecmp = cpu.csr.mtimecmp ∧
    (raise_timer_interrupts cpu).csr.cycle = cpu.csr.cycle ∧
    (raise_timer_interrupts cpu).csr.scyclecmp = cpu.csr.scyclecmp := by
  refine ⟨?_, ?_, rfl, rfl, rfl, rfl⟩
  · unfold raise_timer_interrupts
    rw [show rv_csr_mti_mask = 2 ^ 7 by decide, and_two_pow_ne_eq_testBit]
    by_cases hs : cpu.csr.scyclecmp ≤ cpu.csr.cycle % 2 ^ 32 <;>
      by_cases hm : cpu.csr.mtimecmp ≤ cpu.csr.mtime <;>
        simp [hs, hm, ge_iff_le, Nat.testBit_or, Nat.testBit_and,
          show Nat.testBit 128 7 = true by decide,
          show Nat.testBit 32 7 = false by decide,
          show Nat.testBit (compl32 32) 7 = true by decide,
          show Nat.testBit (compl32 128) 7 = false by decide]
  · unfold raise_timer_interrupts
    rw [show rv_csr_sti_mask = 2 ^ 5 by decide, and_two_pow_ne_eq_testBit]
    by_cases hs : cpu.csr.scyclecmp ≤ cpu.csr.cycle % 4294967296 <;>
      by_cases hm : cpu.csr.mtimecmp ≤ cpu.csr.mtime <;>
        simp [hs, hm, ge_iff_le, Nat.testBit_or, Nat.testBit_and,
          show Nat.testBit 128 5 = false by decide,
          show Nat.testBit (32 : Nat) 5 = true by decide,
          show Nat.testBit (compl32 32) 5 = false by decide,
          show Nat.testBit (compl32 128) 5 = true by decide,
          show Nat.testBit rv_csr_mti_mask 5 = false by decide,
          show Nat.testBit (compl32 rv_csr_mti_mask) 5 = true by decide]
  

/-- m_trap does not touch mip, mtime, mtimecmp, cycle or scyclecmp. -/
theorem m_trap_timers (cpu : rv_cpu_t) (ex : Nat) :
    (m_trap cpu ex).csr.mip = cpu.csr.mip ∧
    (m_trap cpu ex).csr.mtime = cpu.csr.mtime ∧
    (m_trap cpu ex).csr.mtimecmp = cpu.csr.mtimecmp ∧
    (m_trap cpu ex).csr.cycle = cpu.csr.cycle ∧
    (m_trap cpu ex).csr.scyclecmp = cpu.csr.scyclecmp :=
  ⟨rfl, rfl, rfl, rfl, rfl⟩

/-- s_trap does not touch mip, mtime, mtimecmp, cycle or scyclecmp. -/
theorem s_trap_timers (cpu : rv_cpu_t) (ex : Nat) :
    (s_trap cpu ex).csr.mip = cpu.csr.mip ∧
    (s_trap cpu ex).csr.mtime = cpu.csr.mtime ∧
    (s_trap cpu ex).csr.mtimecmp = cpu.csr.mtimecmp ∧
    (s_trap cpu ex).csr.cycle = cpu.csr.cycle ∧
    (s_trap cpu ex).csr.scyclecmp = cpu.csr.scyclecmp :=
  ⟨rfl, rfl, rfl, rfl, rfl⟩

/-- handle_exception preserves the timer-relevant fields. -/
theorem handle_exception_timers (cpu : rv_cpu_t) (ex : Nat) :
    (handle_exception cpu ex).csr.mip = cpu.csr.mip ∧
    (handle_exception cpu ex).csr.mtime = cpu.csr.mtime ∧
    (handle_exception cpu ex).csr.mtimecmp = cpu.csr.mtimecmp ∧
    (handle_exception cpu ex).csr.cycle = cpu.csr.cycle ∧
    (handle_exception cpu ex).csr.scyclecmp = cpu.csr.scyclecmp := by
  simp only [handle_exception]
  split_ifs
  · exact s_trap_timers cpu ex
  · exact m_trap_timers cpu ex

/-- try_handle_interrupt preserves the timer-relevant fields: every
branch is the identity, m_trap or s_trap, none of which writes them. -/
theorem try_handle_interrupt_timers (cpu : rv_cpu_t) :
    (try_handle_interrupt cpu).csr.mip = cpu.csr.mip ∧
    (try_handle_interrupt cpu).csr.mtime = cpu.csr.mtime ∧
    (try_handle_interrupt cpu).csr.mtimecmp = cpu.csr.mtimecmp ∧
    (try_handle_interrupt cpu).csr.cycle = cpu.csr.cycle ∧
    (try_handle_interrupt cpu).csr.scyclecmp = cpu.csr.scyclecmp := by
  refine ⟨?_, ?_, ?_, ?_, ?_⟩ <;>
    simp only [try_handle_interrupt, apply_ite rv_cpu_t.csr, apply_ite rv_csr_t.mip,
      apply_ite rv_csr_t.mtime, apply_ite rv_csr_t.mtimecmp, apply_ite rv_csr_t.cycle,
      apply_ite rv_csr_t.scyclecmp,
      show ∀ c e, (m_trap c e).csr.mip = c.csr.mip from fun _ _ => rfl,
      show ∀ c e, (s_trap c e).csr.mip = c.csr.mip from fun _ _ => rfl,
      show ∀ c e, (m_trap c e).csr.mtime = c.csr.mtime from fun _ _ => rfl,
      show ∀ c e, (s_trap c e).csr.mtime = c.csr.mtime from fun _ _ => rfl,
      show ∀ c e, (m_trap c e).csr.mtimecmp = c.csr.mtimecmp from fun _ _ => rfl,
      show ∀ c e, (s_trap c e).csr.mtimecmp = c.csr.mtimecmp from fun _ _ => rfl,
      show ∀ c e, (m_trap c e).csr.cycle = c.csr.cycle from fun _ _ => rfl,
      show ∀ c e, (s_trap c e).csr.cycle = c.csr.cycle from fun _ _ => rfl,
      show ∀ c e, (m_trap c e).csr.scyclecmp = c.csr.scyclecmp from fun _ _ => rfl,
      show ∀ c e, (s_trap c e).csr.scyclecmp = c.csr.scyclecmp from fun _ _ => rfl,
      ite_self]

/-- Transport of the timer-bit invariant along equal timer fields. -/
theorem timers_eq_trans (a b : rv_cpu_t)
    (h : a.csr.mip = b.csr.mip ∧ a.csr.mtime = b.csr.mtime ∧
      a.csr.mtimecmp = b.csr.mtimecmp ∧ a.csr.cycle = b.csr.cycle ∧
      a.csr.scyclecmp = b.csr.scyclecmp)
    (hb : ((b.csr.mip &&& rv_csr_mti_mask) != 0) = decide (b.csr.mtime ≥ b.csr.mtimecmp) ∧
      ((b.csr.mip &&& rv_csr_sti_mask) != 0) =
        decide (b.csr.cycle % 2 ^ 32 ≥ b.csr.scyclecmp)) :
    ((a.csr.mip &&& rv_csr_mti_mask) != 0) = decide (a.csr.mtime ≥ a.csr.mtimecmp) ∧
    ((a.csr.mip &&& rv_csr_sti_mask) != 0) =
      decide (a.csr.cycle % 2 ^ 32 ≥ a.csr.scyclecmp) := by
  obtain ⟨h1, h2, h3, h4, h5⟩ := h
  rw [h1, h2, h3, h4, h5]
  exact hb

/-- After account has run, MTIP reflects mtime vs mtimecmp and STIP
reflects the low 32 bits of cycle vs scyclecmp, stated on the fields of
the resulting state. -/
theorem account_timers (c : rv_cpu_t) (flag : Bool) (now : Nat) :
    (((account c flag now).csr.mip &&& rv_csr_mti_mask) != 0) =
      decide ((account c flag now).csr.mtime ≥ (account c flag now).csr.mtimecmp) ∧
    (((account c flag now).csr.mip &&& rv_csr_sti_mask) != 0) =
      decide ((account c flag now).csr.cycle % 2 ^ 32 ≥
        (account c flag now).csr.scyclecmp) := by
  have hkey : ∀ u : rv_cpu_t,
      (((raise_timer_interrupts u).csr.mip &&& rv_csr_mti_mask) != 0) =
        decide ((raise_timer_interrupts u).csr.mtime ≥
          (raise_timer_interrupts u).csr.mtimecmp) ∧
      (((raise_timer_interrupts u).csr.mip &&& rv_csr_sti_mask) != 0) =
        decide ((raise_timer_interrupts u).csr.cycle % 2 ^ 32 ≥
          (raise_timer_interrupts u).csr.scyclecmp) := by
    intro u
    have hr := raise_timer_spec u
    constructor
    · rw [hr.2.2.1, hr.2.2.2.1]
      exact hr.1
    · rw [hr.2.2.2.2.1, hr.2.2.2.2.2]
      exact hr.2.1
  exact hkey _

/-- C7: after every rv_cpu_step — for any executor behaviour and host
clock — mip.MTIP is set iff mtime is at least mtimecmp, and mip.STIP is
set iff the low 32 bits of cycle are at least scyclecmp, on the fields of
the post-step state (accounting ran during the step and nothing after it
modifies mip or the compared registers). -/
theorem claim_C7_timer_pending_bits (exec : rv_cpu_t → rv_cpu_t × Nat)
    (now : Nat) (cpu : rv_cpu_t) :
    (((rv_cpu_step exec now cpu).csr.mip &&& rv_csr_mti_mask) != 0) =
      decide ((rv_cpu_step exec now cpu).csr.mtime ≥
        (rv_cpu_step exec now cpu).csr.mtimecmp) ∧
    (((rv_cpu_step exec now cpu).csr.mip &&& rv_csr_sti_mask) != 0) =
      decide ((rv_cpu_step exec now cpu).csr.cycle % 2 ^ 32 ≥
        (rv_cpu_step exec now cpu).csr.scyclecmp) := by
  unfold rv_cpu_step
  rcases hsplit : (if cpu.stdby then (cpu, rv_exc_none) else exec cpu) with ⟨cpu1, ex⟩
  refine timers_eq_trans _ (account cpu1 (ex != rv_exc_none) now) ⟨?_, ?_, ?_, ?_, ?_⟩
    (account_timers cpu1 (ex != rv_exc_none) now) <;>
    dsimp only
  · split <;> split <;>
      first
        | exact (handle_exception_timers _ _).1
        | exact (try_handle_interrupt_timers _).1
  · split <;> split <;>
      first
        | exact (handle_exception_timers _ _).2.1
        | exact (try_handle_interrupt_timers _).2.1
  · split <;> split <;>
      first
        | exact (handle_exception_timers _ _).2.2.1
        | exact (try_handle_interrupt_timers _).2.2.1
  · split <;> split <;>
      first
        | exact (handle_exception_timers _ _).2.2.2.1
        | exact (try_handle_interrupt_timers _).2.2.2.1
  · split <;> split <;>
      first
        | exact (handle_exception_timers _ _).2.2.2.2
        | exact (try_handle_interrupt_timers _).2.2.2.2

end Msim
